import Mathlib

/-!
Verification of the pipeline orchestrator `AICICDPipeline.run_pipeline`
from `main.py` of the CICD-AI repository.

The collaborators (code analyzer, security scanner, test manager, deployment
manager, AI assistant) are imported from external modules that are not part
of this repository; `run_pipeline` only observes the values their methods
return or the exceptions they raise.  We therefore embed `run_pipeline` as a
function of an environment `Env` that records, for each collaborator call
site in source order, either the value the call returns or the exception it
raises.  A `Trace` of spy counters records how often selected collaborator
operations are invoked, so that call-count properties can be stated.
-/

namespace CICD

/-- Opaque structured data -- a Python object that `run_pipeline` forwards
verbatim into the results dictionary without inspecting it. -/
abbrev Payload := String

/-- A Python exception as observed by the handler at main.py line 149:
either a KeyError raised by subscripting a dict that misses the key, or any
other exception identified by its str rendering. -/
inductive PyErr where
  | keyError (key : String)
  | exn (msg : String)
deriving DecidableEq

/-- Python str of an exception, as stored at main.py line 152: for a
KeyError the key is rendered wrapped in single quotes (ASCII 0x27). -/
def errStr : PyErr → String
  | .keyError k => "\x27" ++ k ++ "\x27"
  | .exn m => m

/-- The dictionary returned by test_manager.run_tests: the code reads the
keys passed, failed and coverage (main.py lines 98-100).  The passed and
failed values are test counts; coverage is forwarded opaquely. -/
structure TestResults where
  passed : Int
  failed : Int
  coverage : Payload
deriving DecidableEq

/-- The dictionary returned by deployment_manager.validate_infrastructure:
the code reads the keys valid and errors (main.py lines 112-113). -/
structure IacValidation where
  valid : Bool
  errors : Payload
deriving DecidableEq

/-- The dictionary returned by ai_assistant.assess_deployment_risks.  The
code subscripts it at the key risk_level (main.py line 129); `none` models a
malformed assessment whose dict misses that key, in which case the subscript
raises a KeyError.  All other content is opaque. -/
structure RiskAssessment where
  risk_level : Option Int
  analysis : Payload
deriving DecidableEq

/-- The dictionary returned by deployment_manager.deploy: the code reads the
keys success and environment (main.py lines 133-134). -/
structure DeployResult where
  success : Bool
  environment : Payload
deriving DecidableEq

/-- Stage entry written for code_analysis (main.py lines 76-79). -/
structure CodeAnalysisEntry where
  issues_found : Nat
  ai_suggestions : Payload
deriving DecidableEq

/-- Stage entry written for security_scan (main.py lines 86-89). -/
structure SecurityScanEntry where
  vulnerabilities : Nat
  ai_risk_assessment : Payload
deriving DecidableEq

/-- Stage entry written for testing (main.py lines 97-102).  Its passed
field is the only occurrence of a passed key among all stage entries. -/
structure TestingEntry where
  passed : Int
  failed : Int
  coverage : Payload
  ai_test_suggestions : Payload
deriving DecidableEq

/-- Stage entry written for infrastructure_validation (main.py lines
111-115). -/
structure InfraEntry where
  valid : Bool
  errors : Payload
  ai_analysis : Payload
deriving DecidableEq

/-- Stage entry written for deployment.  The success path (main.py lines
132-136) sets success, environment and ai_risk_assessment; the halt path
(lines 140-144) sets success, halted_reason and ai_risk_assessment.  A
field is `none` when the corresponding key is absent from the dict. -/
structure DeploymentEntry where
  success : Bool
  environment : Option Payload
  halted_reason : Option String
  ai_risk_assessment : RiskAssessment
deriving DecidableEq

/-- The stages dictionary of the results dict, one optional entry per
stage key in insertion order; `none` means the key was never inserted. -/
structure Stages where
  code_analysis : Option CodeAnalysisEntry
  security_scan : Option SecurityScanEntry
  testing : Option TestingEntry
  infrastructure_validation : Option InfraEntry
  deployment : Option DeploymentEntry
deriving DecidableEq

/-- The deployment-gate condition at main.py line 119: Python
all of stage.get of the key passed with default True, over the values of
the stages dict.  Entries for code_analysis, security_scan,
infrastructure_validation and deployment carry no passed key, so their get
defaults to True; the testing entry's value at the key passed is the passed
test count, whose Python truthiness is being nonzero.  Absent entries
contribute nothing to all. -/
def stagesAllPassed (s : Stages) : Bool :=
  (s.code_analysis.all fun _ => true) &&
  (s.security_scan.all fun _ => true) &&
  (s.testing.all fun t => t.passed != 0) &&
  (s.infrastructure_validation.all fun _ => true) &&
  (s.deployment.all fun _ => true)

/-- One run's collaborator behaviour: for every collaborator call site in
run_pipeline, in source order, the value the call returns or the exception
it raises.  This is the mock interface over which the testable properties
quantify. -/
structure Env where
  analyze : Except PyErr (List Payload)
  get_code_improvements : Except PyErr Payload
  scan : Except PyErr (List Payload)
  assess_security_risks : Except PyErr Payload
  run_tests : Except PyErr TestResults
  get_recent_changes : Except PyErr Payload
  suggest_additional_tests : Except PyErr Payload
  find_iac_files : Except PyErr (List Payload)
  validate_infrastructure : Except PyErr IacValidation
  analyze_infrastructure_changes : Except PyErr Payload
  create_deployment_plan : Except PyErr Payload
  assess_deployment_risks : Except PyErr RiskAssessment
  deploy : Except PyErr DeployResult
  generate_build_summary : Except PyErr Payload

/-- Spy counters: how many times selected collaborator operations are
invoked during a run.  An operation counts as invoked when control reaches
its call site, whether the call returns or raises. -/
structure Trace where
  infra_ai_calls : Nat
  risk_calls : Nat
  deploy_calls : Nat
  summary_calls : Nat
deriving DecidableEq

/-- The observable outcome of the try/except body of run_pipeline: the
stages dict, the optional ai_summary value, the caught exception if one was
raised, and the spy counters. -/
structure CoreOut where
  stages : Stages
  ai_summary : Option Payload
  err : Option PyErr
  trace : Trace
deriving DecidableEq

/-- Last statement of the try block (main.py line 147): request the build
summary from the AI assistant; on success it is stored under ai_summary, an
exception aborts the try block with that error. -/
def summaryStage (env : Env) (s : Stages) (tr : Trace) : CoreOut :=
  match env.generate_build_summary with
  | .error e => ⟨s, none, some e, { tr with summary_calls := tr.summary_calls + 1 }⟩
  | .ok sm => ⟨s, some sm, none, { tr with summary_calls := tr.summary_calls + 1 }⟩

/-- Stage 5, deployment with risk analysis (main.py lines 117-144), then
the summary.  The gate at line 119 guards plan creation, risk assessment
and the risk-level comparison; the subscript at line 129 raises a KeyError
when the assessment dict misses the risk_level key; deploy runs only when
the risk level is at most 3. -/
def deployStage (env : Env) (s : Stages) (tr : Trace) : CoreOut :=
  if stagesAllPassed s then
    match env.create_deployment_plan with
    | .error e => ⟨s, none, some e, tr⟩
    | .ok _plan =>
      let tr1 := { tr with risk_calls := tr.risk_calls + 1 }
      match env.assess_deployment_risks with
      | .error e => ⟨s, none, some e, tr1⟩
      | .ok risks =>
        match risks.risk_level with
        | none => ⟨s, none, some (.keyError "risk_level"), tr1⟩
        | some lvl =>
            if lvl ≤ 3 then
              let tr2 := { tr1 with deploy_calls := tr1.deploy_calls + 1 }
              match env.deploy with
              | .error e => ⟨s, none, some e, tr2⟩
              | .ok d =>
                  let entry : DeploymentEntry := ⟨d.success, some d.environment, none, risks⟩
                  summaryStage env { s with deployment := some entry } tr2
            else
              let entry : DeploymentEntry := ⟨false, none, some "High risk assessment", risks⟩
              summaryStage env { s with deployment := some entry } tr1
  else
    summaryStage env s tr

/-- Stage 4, infrastructure validation (main.py lines 104-115), then stage
5.  The Python truthiness test on the list of IaC files skips the whole
block when the list is empty: no entry is recorded and the AI assistant is
not called for this stage. -/
def infraStage (env : Env) (s : Stages) (tr : Trace) : CoreOut :=
  match env.find_iac_files with
  | .error e => ⟨s, none, some e, tr⟩
  | .ok iac_files =>
    if iac_files.isEmpty then
      deployStage env s tr
    else
      match env.validate_infrastructure with
      | .error e => ⟨s, none, some e, tr⟩
      | .ok v =>
        match env.analyze_infrastructure_changes with
        | .error e => ⟨s, none, some e, { tr with infra_ai_calls := tr.infra_ai_calls + 1 }⟩
        | .ok a =>
          deployStage env
            { s with infrastructure_validation := some ⟨v.valid, v.errors, a⟩ }
            { tr with infra_ai_calls := tr.infra_ai_calls + 1 }

/-- The try block of run_pipeline (main.py lines 67-147).  The
clone_repository call at line 69 computes a local path from the build id
and cannot raise, so it contributes nothing observable here.  Stages 1-3
record their entries only after both the stage executor call and the
corresponding AI assistant call return; any exception aborts the block with
the stages recorded so far. -/
def pipelineBody (env : Env) : CoreOut :=
  match env.analyze with
  | .error e => ⟨⟨none, none, none, none, none⟩, none, some e, ⟨0, 0, 0, 0⟩⟩
  | .ok code_issues =>
    match env.get_code_improvements with
    | .error e => ⟨⟨none, none, none, none, none⟩, none, some e, ⟨0, 0, 0, 0⟩⟩
    | .ok sugg =>
      match env.scan with
      | .error e =>
          ⟨⟨some ⟨code_issues.length, sugg⟩, none, none, none, none⟩,
            none, some e, ⟨0, 0, 0, 0⟩⟩
      | .ok findings =>
        match env.assess_security_risks with
        | .error e =>
            ⟨⟨some ⟨code_issues.length, sugg⟩, none, none, none, none⟩,
              none, some e, ⟨0, 0, 0, 0⟩⟩
        | .ok sec =>
          match env.run_tests with
          | .error e =>
              ⟨⟨some ⟨code_issues.length, sugg⟩, some ⟨findings.length, sec⟩,
                  none, none, none⟩, none, some e, ⟨0, 0, 0, 0⟩⟩
          | .ok t =>
            match env.get_recent_changes with
            | .error e =>
                ⟨⟨some ⟨code_issues.length, sugg⟩, some ⟨findings.length, sec⟩,
                    none, none, none⟩, none, some e, ⟨0, 0, 0, 0⟩⟩
            | .ok _changes =>
              match env.suggest_additional_tests with
              | .error e =>
                  ⟨⟨some ⟨code_issues.length, sugg⟩, some ⟨findings.length, sec⟩,
                      none, none, none⟩, none, some e, ⟨0, 0, 0, 0⟩⟩
              | .ok tsugg =>
                infraStage env
                  ⟨some ⟨code_issues.length, sugg⟩, some ⟨findings.length, sec⟩,
                    some ⟨t.passed, t.failed, t.coverage, tsugg⟩, none, none⟩
                  ⟨0, 0, 0, 0⟩

/-- The constructor arguments of AICICDPipeline together with the build id
generated in its constructor (main.py lines 31-36). -/
structure Config where
  build_id : String
  repo_url : String
  branch : String
deriving DecidableEq

/-- The two timestamps run_pipeline draws from the system clock: one at
results creation (main.py line 63), one in the finally block (line 157). -/
structure Clock where
  started_at : Nat
  completed_at : Nat
deriving DecidableEq

/-- The results dictionary returned by run_pipeline.  Fields of Option type
model keys the code may leave absent on some paths; the identity fields and
stages are inserted unconditionally at lines 59-65. -/
structure Report where
  build_id : String
  repository : String
  branch : String
  started_at : Nat
  stages : Stages
  ai_summary : Option Payload
  error : Option String
  success : Option Bool
  completed_at : Option Nat
deriving DecidableEq

/-- A run's returned report paired with the spy counters of the run. -/
structure RunResult where
  report : Report
  trace : Trace
deriving DecidableEq

/-- run_pipeline (main.py lines 56-159): build the results dict with the
identity fields and an empty stages dict, run the try body, then the
except clause stores str of the exception under error and False under
success, the else clause stores True under success, and the finally clause
unconditionally stores the completion timestamp. -/
def run_pipeline (cfg : Config) (clk : Clock) (env : Env) : RunResult :=
  let body := pipelineBody env
  { report :=
      { build_id := cfg.build_id
        repository := cfg.repo_url
        branch := cfg.branch
        started_at := clk.started_at
        stages := body.stages
        ai_summary := body.ai_summary
        error := body.err.map errStr
        success := some body.err.isNone
        completed_at := some clk.completed_at }
    trace := body.trace }

end CICD

namespace CICD

theorem option_all_const_true {α : Type} (o : Option α) : (o.all fun _ => true) = true := by
  cases o <;> rfl

theorem summaryStage_stages (env : Env) (s : Stages) (tr : Trace) :
    (summaryStage env s tr).stages = s := by
  unfold summaryStage
  cases env.generate_build_summary <;> rfl

theorem summaryStage_deploy_calls (env : Env) (s : Stages) (tr : Trace) :
    (summaryStage env s tr).trace.deploy_calls = tr.deploy_calls := by
  unfold summaryStage
  cases env.generate_build_summary <;> rfl

theorem summaryStage_infra_ai_calls (env : Env) (s : Stages) (tr : Trace) :
    (summaryStage env s tr).trace.infra_ai_calls = tr.infra_ai_calls := by
  unfold summaryStage
  cases env.generate_build_summary <;> rfl

theorem summaryStage_err_of_error (env : Env) (s : Stages) (tr : Trace) (e : PyErr)
    (h : env.generate_build_summary = .error e) :
    (summaryStage env s tr).err = some e := by
  unfold summaryStage
  rw [h]

theorem summaryStage_err_of_ok (env : Env) (s : Stages) (tr : Trace) (sm : Payload)
    (h : env.generate_build_summary = .ok sm) :
    (summaryStage env s tr).err = none ∧ (summaryStage env s tr).ai_summary = some sm := by
  unfold summaryStage
  rw [h]
  exact ⟨rfl, rfl⟩

theorem deployStage_gate_false (env : Env) (s : Stages) (tr : Trace)
    (h : stagesAllPassed s = false) :
    deployStage env s tr = summaryStage env s tr := by
  unfold deployStage
  rw [h]
  rfl

theorem stagesAllPassed_testing_zero (s : Stages) (te : TestingEntry)
    (hs : s.testing = some te) (hp : te.passed = 0) :
    stagesAllPassed s = false := by
  unfold stagesAllPassed
  rw [hs]
  simp [hp]

theorem deployStage_infra_field (env : Env) (s : Stages) (tr : Trace) :
    (deployStage env s tr).stages.infrastructure_validation = s.infrastructure_validation := by
  simp only [deployStage, summaryStage]
  repeat' split
  all_goals rfl

theorem deployStage_infra_ai_calls (env : Env) (s : Stages) (tr : Trace) :
    (deployStage env s tr).trace.infra_ai_calls = tr.infra_ai_calls := by
  simp only [deployStage, summaryStage]
  repeat' split
  all_goals rfl

end CICD

namespace CICD

theorem deployStage_err_isSome (env : Env) (s : Stages) (tr : Trace) (e : PyErr)
    (h : env.generate_build_summary = .error e) :
    (deployStage env s tr).err.isSome := by
  simp only [deployStage, summaryStage]
  repeat' split
  all_goals simp_all

theorem infraStage_err_isSome (env : Env) (s : Stages) (tr : Trace) (e : PyErr)
    (h : env.generate_build_summary = .error e) :
    (infraStage env s tr).err.isSome := by
  simp only [infraStage]
  repeat' split
  all_goals first
  | rfl
  | exact deployStage_err_isSome env _ _ e h

theorem pipelineBody_err_isSome (env : Env) (e : PyErr)
    (h : env.generate_build_summary = .error e) :
    (pipelineBody env).err.isSome := by
  simp only [pipelineBody]
  repeat' split
  all_goals first
  | rfl
  | exact infraStage_err_isSome env _ _ e h

theorem deployStage_deploy_calls_testing_zero (env : Env) (s : Stages) (tr : Trace)
    (te : TestingEntry) (hs : s.testing = some te) (hp : te.passed = 0) :
    (deployStage env s tr).trace.deploy_calls = tr.deploy_calls := by
  rw [deployStage_gate_false env s tr (stagesAllPassed_testing_zero s te hs hp),
    summaryStage_deploy_calls]

theorem infraStage_deploy_calls_testing_zero (env : Env) (s : Stages) (tr : Trace)
    (te : TestingEntry) (hs : s.testing = some te) (hp : te.passed = 0) :
    (infraStage env s tr).trace.deploy_calls = tr.deploy_calls := by
  simp only [infraStage]
  repeat' split
  all_goals first
  | rfl
  | exact deployStage_deploy_calls_testing_zero env _ _ te hs hp

theorem infraStage_skip (env : Env) (s : Stages) (tr : Trace)
    (h : env.find_iac_files = .ok []) :
    infraStage env s tr = deployStage env s tr := by
  simp only [infraStage, h, List.isEmpty_nil, if_true]

/-- The run gets past stage 4 without an exception: either no IaC files are
found, or validation and its AI analysis both return. -/
def IacPhaseOk (env : Env) : Prop :=
  env.find_iac_files = .ok [] ∨
    ∃ f fs v a, env.find_iac_files = .ok (f :: fs) ∧
      env.validate_infrastructure = .ok v ∧ env.analyze_infrastructure_changes = .ok a

theorem pipelineBody_reaches_deploy (env : Env)
    (issues : List Payload) (sugg : Payload) (findings : List Payload) (sec : Payload)
    (t : TestResults) (changes tsugg : Payload)
    (h1 : env.analyze = .ok issues) (h2 : env.get_code_improvements = .ok sugg)
    (h3 : env.scan = .ok findings) (h4 : env.assess_security_risks = .ok sec)
    (h5 : env.run_tests = .ok t) (h6 : env.get_recent_changes = .ok changes)
    (h7 : env.suggest_additional_tests = .ok tsugg)
    (hIac : IacPhaseOk env) :
    ∃ (infra : Option InfraEntry) (tr : Trace),
      pipelineBody env =
        deployStage env
          ⟨some ⟨issues.length, sugg⟩, some ⟨findings.length, sec⟩,
            some ⟨t.passed, t.failed, t.coverage, tsugg⟩, infra, none⟩ tr ∧
      tr.deploy_calls = 0 := by
  rcases hIac with hI | ⟨f, fs, v, a, hI, hV, hA⟩
  · refine ⟨none, ⟨0, 0, 0, 0⟩, ?_, rfl⟩
    simp only [pipelineBody, h1, h2, h3, h4, h5, h6, h7, infraStage, hI, List.isEmpty_nil,
      if_true]
  · refine ⟨some ⟨v.valid, v.errors, a⟩, ⟨1, 0, 0, 0⟩, ?_, rfl⟩
    simp only [pipelineBody, h1, h2, h3, h4, h5, h6, h7, infraStage, hI, hV, hA,
      List.isEmpty_cons, if_false, Bool.false_eq_true]

end CICD

namespace CICD

theorem stagesAllPassed_full (ca : CodeAnalysisEntry) (ss : SecurityScanEntry)
    (te : TestingEntry) (infra : Option InfraEntry) (hp : te.passed ≠ 0) :
    stagesAllPassed ⟨some ca, some ss, some te, infra, none⟩ = true := by
  simp [stagesAllPassed, option_all_const_true, hp]

theorem deployStage_halt (env : Env) (s : Stages) (tr : Trace) (plan : Payload)
    (ra : RiskAssessment) (lvl : Int)
    (hgate : stagesAllPassed s = true)
    (hPl : env.create_deployment_plan = .ok plan)
    (hDR : env.assess_deployment_risks = .ok ra)
    (hLvl : ra.risk_level = some lvl) (hGt : 3 < lvl) :
    deployStage env s tr =
      summaryStage env
        { s with deployment := some ⟨false, none, some "High risk assessment", ra⟩ }
        { tr with risk_calls := tr.risk_calls + 1 } := by
  simp only [deployStage, hgate, if_true, hPl, hDR, hLvl]
  rw [if_neg (not_le.mpr hGt)]

theorem deployStage_deploy (env : Env) (s : Stages) (tr : Trace) (plan : Payload)
    (ra : RiskAssessment) (lvl : Int) (d : DeployResult)
    (hgate : stagesAllPassed s = true)
    (hPl : env.create_deployment_plan = .ok plan)
    (hDR : env.assess_deployment_risks = .ok ra)
    (hLvl : ra.risk_level = some lvl) (hLe : lvl ≤ 3)
    (hD : env.deploy = .ok d) :
    deployStage env s tr =
      summaryStage env
        { s with deployment := some ⟨d.success, some d.environment, none, ra⟩ }
        { tr with risk_calls := tr.risk_calls + 1, deploy_calls := tr.deploy_calls + 1 } := by
  simp only [deployStage, hgate, if_true, hPl, hDR, hLvl, hD]
  rw [if_pos hLe]

theorem deployStage_missing_risk (env : Env) (s : Stages) (tr : Trace) (plan : Payload)
    (ra : RiskAssessment)
    (hgate : stagesAllPassed s = true)
    (hPl : env.create_deployment_plan = .ok plan)
    (hDR : env.assess_deployment_risks = .ok ra)
    (hLvl : ra.risk_level = none) :
    deployStage env s tr =
      ⟨s, none, some (.keyError "risk_level"),
        { tr with risk_calls := tr.risk_calls + 1 }⟩ := by
  simp only [deployStage, hgate, if_true, hPl, hDR, hLvl]

end CICD

namespace CICD

/-- A benign baseline run used for concrete inputs: every collaborator
returns, the analyzer and scanner find nothing, ten tests pass, no IaC
files exist, and the deployment-risk assessment reports level 1. -/
def envBase : Env :=
  { analyze := .ok []
    get_code_improvements := .ok "sugg"
    scan := .ok []
    assess_security_risks := .ok "sec"
    run_tests := .ok ⟨10, 0, "cov"⟩
    get_recent_changes := .ok "changes"
    suggest_additional_tests := .ok "tsugg"
    find_iac_files := .ok []
    validate_infrastructure := .ok ⟨true, "noerr"⟩
    analyze_infrastructure_changes := .ok "iacinfo"
    create_deployment_plan := .ok "plan"
    assess_deployment_risks := .ok ⟨some 1, "low"⟩
    deploy := .ok ⟨true, "prod"⟩
    generate_build_summary := .ok "summary" }

/-- A fixed pipeline configuration for concrete runs. -/
def cfg0 : Config := ⟨"build-1", "repo", "main"⟩

/-- A fixed clock for concrete runs. -/
def clk0 : Clock := ⟨0, 1⟩

/-- A run whose analysis finds three issues and whose scan finds one
vulnerability, while ten tests pass and the risk assessment reports
level 0. -/
def envIssuesFound : Env :=
  { envBase with
      analyze := .ok ["i1", "i2", "i3"]
      scan := .ok ["v1"]
      assess_deployment_risks := .ok ⟨some 0, "low"⟩ }

/-- C1, counterexample: in a run where the code-analysis stage records
issues_found = 3 and the security scan records one vulnerability -- which
the claim reads as Failed required stages -- and the risk assessment
reports level 0, deploy is nevertheless invoked once, because the gate at
main.py line 119 only consults a passed key that neither the code_analysis
nor the security_scan entry carries.  The claim asserts deploy is never
invoked in such a run. -/
theorem claim_C1_counterexample :
    (run_pipeline cfg0 clk0 envIssuesFound).report.stages.code_analysis =
      some ⟨3, "sugg"⟩ ∧
    (run_pipeline cfg0 clk0 envIssuesFound).report.stages.security_scan =
      some ⟨1, "sec"⟩ ∧
    envIssuesFound.assess_deployment_risks = .ok ⟨some 0, "low"⟩ ∧
    (run_pipeline cfg0 clk0 envIssuesFound).trace.deploy_calls = 1 :=
  ⟨rfl, rfl, rfl, rfl⟩

/-- C1, amended: the stage outcomes that block deployment are exactly the
ones visible to the gate at main.py line 119.  Whenever the testing stage
result has a passed count of 0 (Python-falsy), deploy is never invoked,
regardless of the risk level; code-analysis issues and security-scan
vulnerabilities do not, by themselves, block deployment. -/
theorem claim_C1_theorem (cfg : Config) (clk : Clock) (env : Env) (t : TestResults)
    (h : env.run_tests = .ok t) (hp : t.passed = 0) :
    (run_pipeline cfg clk env).trace.deploy_calls = 0 := by
  show (pipelineBody env).trace.deploy_calls = 0
  simp only [pipelineBody, h]
  repeat' split
  all_goals try rfl
  exact infraStage_deploy_calls_testing_zero env _ _ _ rfl hp

/-- A run in which five tests fail and none pass, while the risk assessment
reports level 0. -/
def envTestsZero : Env :=
  { envBase with
      run_tests := .ok ⟨0, 5, "cov"⟩
      assess_deployment_risks := .ok ⟨some 0, "low"⟩ }

/-- C1, witness for the amended theorem at a concrete run. -/
theorem claim_C1_witness :
    envTestsZero.run_tests = .ok ⟨0, 5, "cov"⟩ ∧
    (run_pipeline cfg0 clk0 envTestsZero).trace.deploy_calls = 0 :=
  ⟨rfl, claim_C1_theorem cfg0 clk0 envTestsZero ⟨0, 5, "cov"⟩ rfl rfl⟩

end CICD

namespace CICD

/-- C2: in every run that reaches the deployment gate (stages 1-4 return,
the gate condition holds) and whose risk assessment carries a risk_level
greater than 3, the deployment stage entry records success false with the
halt reason High risk assessment, and deploy is never invoked. -/
theorem claim_C2_theorem (cfg : Config) (clk : Clock) (env : Env)
    (issues : List Payload) (sugg : Payload) (findings : List Payload) (sec : Payload)
    (t : TestResults) (changes tsugg plan : Payload) (ra : RiskAssessment) (lvl : Int)
    (h1 : env.analyze = .ok issues) (h2 : env.get_code_improvements = .ok sugg)
    (h3 : env.scan = .ok findings) (h4 : env.assess_security_risks = .ok sec)
    (h5 : env.run_tests = .ok t) (h6 : env.get_recent_changes = .ok changes)
    (h7 : env.suggest_additional_tests = .ok tsugg)
    (hIac : IacPhaseOk env) (hp : t.passed ≠ 0)
    (hPl : env.create_deployment_plan = .ok plan)
    (hDR : env.assess_deployment_risks = .ok ra)
    (hLvl : ra.risk_level = some lvl) (hGt : 3 < lvl) :
    (run_pipeline cfg clk env).report.stages.deployment =
      some ⟨false, none, some "High risk assessment", ra⟩ ∧
    (run_pipeline cfg clk env).trace.deploy_calls = 0 := by
  obtain ⟨infra, tr, hbody, hdc⟩ :=
    pipelineBody_reaches_deploy env issues sugg findings sec t changes tsugg
      h1 h2 h3 h4 h5 h6 h7 hIac
  have hgate := stagesAllPassed_full ⟨issues.length, sugg⟩ ⟨findings.length, sec⟩
    ⟨t.passed, t.failed, t.coverage, tsugg⟩ infra hp
  have hred := deployStage_halt env _ tr plan ra lvl hgate hPl hDR hLvl hGt
  constructor
  · show (pipelineBody env).stages.deployment = _
    rw [hbody, hred, summaryStage_stages]
  · show (pipelineBody env).trace.deploy_calls = 0
    rw [hbody, hred, summaryStage_deploy_calls]
    exact hdc

/-- A run identical to the baseline except that the risk assessment
reports level 5. -/
def envRisk5 : Env := { envBase with assess_deployment_risks := .ok ⟨some 5, "high"⟩ }

/-- C2, witness at a concrete run with risk level 5. -/
theorem claim_C2_witness :
    envRisk5.assess_deployment_risks = .ok ⟨some 5, "high"⟩ ∧
    (run_pipeline cfg0 clk0 envRisk5).report.stages.deployment =
      some ⟨false, none, some "High risk assessment", ⟨some 5, "high"⟩⟩ ∧
    (run_pipeline cfg0 clk0 envRisk5).trace.deploy_calls = 0 :=
  let h := claim_C2_theorem cfg0 clk0 envRisk5 [] "sugg" [] "sec" ⟨10, 0, "cov"⟩
    "changes" "tsugg" "plan" ⟨some 5, "high"⟩ 5 rfl rfl rfl rfl rfl rfl rfl
    (Or.inl rfl) (by decide) rfl rfl rfl (by decide)
  ⟨rfl, h.1, h.2⟩

/-- C3: in every run that reaches the deployment gate and whose risk
assessment is malformed (its dict misses the risk_level key), deploy is
never invoked and no deployment stage entry is recorded; the subscript
raises a KeyError that the handler stores, so the report's error field is
the str of KeyError for risk_level and success is false. -/
theorem claim_C3_theorem (cfg : Config) (clk : Clock) (env : Env)
    (issues : List Payload) (sugg : Payload) (findings : List Payload) (sec : Payload)
    (t : TestResults) (changes tsugg plan : Payload) (ra : RiskAssessment)
    (h1 : env.analyze = .ok issues) (h2 : env.get_code_improvements = .ok sugg)
    (h3 : env.scan = .ok findings) (h4 : env.assess_security_risks = .ok sec)
    (h5 : env.run_tests = .ok t) (h6 : env.get_recent_changes = .ok changes)
    (h7 : env.suggest_additional_tests = .ok tsugg)
    (hIac : IacPhaseOk env) (hp : t.passed ≠ 0)
    (hPl : env.create_deployment_plan = .ok plan)
    (hDR : env.assess_deployment_risks = .ok ra)
    (hLvl : ra.risk_level = none) :
    (run_pipeline cfg clk env).trace.deploy_calls = 0 ∧
    (run_pipeline cfg clk env).report.stages.deployment = none ∧
    (run_pipeline cfg clk env).report.error = some "\x27risk_level\x27" ∧
    (run_pipeline cfg clk env).report.success = some false := by
  obtain ⟨infra, tr, hbody, hdc⟩ :=
    pipelineBody_reaches_deploy env issues sugg findings sec t changes tsugg
      h1 h2 h3 h4 h5 h6 h7 hIac
  have hgate := stagesAllPassed_full ⟨issues.length, sugg⟩ ⟨findings.length, sec⟩
    ⟨t.passed, t.failed, t.coverage, tsugg⟩ infra hp
  have hred := deployStage_missing_risk env _ tr plan ra hgate hPl hDR hLvl
  refine ⟨?_, ?_, ?_, ?_⟩
  · show (pipelineBody env).trace.deploy_calls = 0
    rw [hbody, hred]
    exact hdc
  · show (pipelineBody env).stages.deployment = none
    rw [hbody, hred]
  · show (pipelineBody env).err.map errStr = some "\x27risk_level\x27"
    rw [hbody, hred]
    rfl
  · show some (pipelineBody env).err.isNone = some false
    rw [hbody, hred]
    rfl

/-- A run identical to the baseline except that the risk assessment dict
misses the risk_level key. -/
def envNoRiskKey : Env := { envBase with assess_deployment_risks := .ok ⟨none, "broken"⟩ }

/-- C3, witness at a concrete run with a malformed risk assessment. -/
theorem claim_C3_witness :
    envNoRiskKey.assess_deployment_risks = .ok ⟨none, "broken"⟩ ∧
    (run_pipeline cfg0 clk0 envNoRiskKey).trace.deploy_calls = 0 ∧
    (run_pipeline cfg0 clk0 envNoRiskKey).report.error = some "\x27risk_level\x27" ∧
    (run_pipeline cfg0 clk0 envNoRiskKey).report.success = some false :=
  let h := claim_C3_theorem cfg0 clk0 envNoRiskKey [] "sugg" [] "sec" ⟨10, 0, "cov"⟩
    "changes" "tsugg" "plan" ⟨none, "broken"⟩ rfl rfl rfl rfl rfl rfl rfl
    (Or.inl rfl) (by decide) rfl rfl rfl
  ⟨rfl, h.1, h.2.2.1, h.2.2.2⟩

/-- C5: in every run that reaches the deployment gate with all prior
stages reporting success and a risk assessment of level at most 3, deploy
is invoked exactly once and its returned success flag and environment are
recorded in the deployment stage entry. -/
theorem claim_C5_theorem (cfg : Config) (clk : Clock) (env : Env)
    (issues : List Payload) (sugg : Payload) (findings : List Payload) (sec : Payload)
    (t : TestResults) (changes tsugg plan : Payload) (ra : RiskAssessment) (lvl : Int)
    (d : DeployResult)
    (h1 : env.analyze = .ok issues) (h2 : env.get_code_improvements = .ok sugg)
    (h3 : env.scan = .ok findings) (h4 : env.assess_security_risks = .ok sec)
    (h5 : env.run_tests = .ok t) (h6 : env.get_recent_changes = .ok changes)
    (h7 : env.suggest_additional_tests = .ok tsugg)
    (hIac : IacPhaseOk env) (hp : t.passed ≠ 0)
    (hPl : env.create_deployment_plan = .ok plan)
    (hDR : env.assess_deployment_risks = .ok ra)
    (hLvl : ra.risk_level = some lvl) (hLe : lvl ≤ 3)
    (hD : env.deploy = .ok d) :
    (run_pipeline cfg clk env).trace.deploy_calls = 1 ∧
    (run_pipeline cfg clk env).report.stages.deployment =
      some ⟨d.success, some d.environment, none, ra⟩ := by
  obtain ⟨infra, tr, hbody, hdc⟩ :=
    pipelineBody_reaches_deploy env issues sugg findings sec t changes tsugg
      h1 h2 h3 h4 h5 h6 h7 hIac
  have hgate := stagesAllPassed_full ⟨issues.length, sugg⟩ ⟨findings.length, sec⟩
    ⟨t.passed, t.failed, t.coverage, tsugg⟩ infra hp
  have hred := deployStage_deploy env _ tr plan ra lvl d hgate hPl hDR hLvl hLe hD
  constructor
  · show (pipelineBody env).trace.deploy_calls = 1
    rw [hbody, hred, summaryStage_deploy_calls]
    simp [hdc]
  · show (pipelineBody env).stages.deployment = _
    rw [hbody, hred, summaryStage_stages]

/-- C5, witness at the baseline run: risk level 1, deploy returns a
successful result for the prod environment. -/
theorem claim_C5_witness :
    envBase.assess_deployment_risks = .ok ⟨some 1, "low"⟩ ∧
    envBase.deploy = .ok ⟨true, "prod"⟩ ∧
    (run_pipeline cfg0 clk0 envBase).trace.deploy_calls = 1 ∧
    (run_pipeline cfg0 clk0 envBase).report.stages.deployment =
      some ⟨true, some "prod", none, ⟨some 1, "low"⟩⟩ :=
  let h := claim_C5_theorem cfg0 clk0 envBase [] "sugg" [] "sec" ⟨10, 0, "cov"⟩
    "changes" "tsugg" "plan" ⟨some 1, "low"⟩ 1 ⟨true, "prod"⟩ rfl rfl rfl rfl rfl rfl rfl
    (Or.inl rfl) (by decide) rfl rfl rfl (by decide) rfl
  ⟨rfl, rfl, h.1, h.2⟩

end CICD

namespace CICD

/-- C4: run_pipeline is total over all collaborator behaviours -- every
exception raised inside the try block is caught and stored -- and on every
exit path the returned report carries the finalization timestamp set at
the single finally block, a boolean success value, and an error field that
is set exactly when success is false. -/
theorem claim_C4_theorem (cfg : Config) (clk : Clock) (env : Env) :
    (run_pipeline cfg clk env).report.completed_at = some clk.completed_at ∧
    (∃ b : Bool, (run_pipeline cfg clk env).report.success = some b) ∧
    ((run_pipeline cfg clk env).report.success = some true ↔
      (run_pipeline cfg clk env).report.error = none) := by
  refine ⟨rfl, ⟨(pipelineBody env).err.isNone, rfl⟩, ?_⟩
  show some (pipelineBody env).err.isNone = some true ↔
    (pipelineBody env).err.map errStr = none
  cases (pipelineBody env).err <;> simp

/-- A run in which analysis and testing pass, the security scan finds one
issue, and the risk assessment reports level 4 against the threshold 3. -/
def envRisk4 : Env :=
  { envBase with
      scan := .ok ["high-sev"]
      assess_deployment_risks := .ok ⟨some 4, "high"⟩ }

/-- C6, counterexample: in the claimed scenario (analysis and testing
pass, the scan finds one issue, risk level 4 against threshold 3) the
deployment entry is recorded as halted, but the run's terminal success
field is true, not false as the claim asserts: the else branch at main.py
line 155 sets success to True whenever no exception was raised, and a
halted deployment raises none. -/
theorem claim_C6_counterexample :
    (run_pipeline cfg0 clk0 envRisk4).report.stages.security_scan = some ⟨1, "sec"⟩ ∧
    (run_pipeline cfg0 clk0 envRisk4).report.stages.deployment =
      some ⟨false, none, some "High risk assessment", ⟨some 4, "high"⟩⟩ ∧
    (run_pipeline cfg0 clk0 envRisk4).report.success = some true :=
  ⟨rfl, rfl, rfl⟩

/-- C6, amended: in the scenario -- analysis passes with no issues,
testing passes, the scan finds at least one issue, risk level 4 -- the
deployment entry records success false with reason High risk assessment
and deploy is not invoked, but the terminal success field is true, because
a risk halt is not an exception and only exceptions make success false. -/
theorem claim_C6_theorem (cfg : Config) (clk : Clock) (env : Env)
    (sugg : Payload) (findings : List Payload) (sec : Payload)
    (t : TestResults) (changes tsugg plan sm : Payload) (ra : RiskAssessment)
    (h1 : env.analyze = .ok []) (h2 : env.get_code_improvements = .ok sugg)
    (h3 : env.scan = .ok findings) (_hv : findings ≠ [])
    (h4 : env.assess_security_risks = .ok sec)
    (h5 : env.run_tests = .ok t) (hp : t.passed ≠ 0) (_hf : t.failed = 0)
    (h6 : env.get_recent_changes = .ok changes)
    (h7 : env.suggest_additional_tests = .ok tsugg)
    (hIac : IacPhaseOk env)
    (hPl : env.create_deployment_plan = .ok plan)
    (hDR : env.assess_deployment_risks = .ok ra)
    (hLvl : ra.risk_level = some 4)
    (hSum : env.generate_build_summary = .ok sm) :
    (run_pipeline cfg clk env).report.stages.deployment =
      some ⟨false, none, some "High risk assessment", ra⟩ ∧
    (run_pipeline cfg clk env).trace.deploy_calls = 0 ∧
    (run_pipeline cfg clk env).report.success = some true := by
  obtain ⟨infra, tr, hbody, hdc⟩ :=
    pipelineBody_reaches_deploy env [] sugg findings sec t changes tsugg
      h1 h2 h3 h4 h5 h6 h7 hIac
  have hgate := stagesAllPassed_full ⟨List.length ([] : List Payload), sugg⟩
    ⟨findings.length, sec⟩ ⟨t.passed, t.failed, t.coverage, tsugg⟩ infra hp
  have hred := deployStage_halt env _ tr plan ra 4 hgate hPl hDR hLvl (by decide)
  refine ⟨?_, ?_, ?_⟩
  · show (pipelineBody env).stages.deployment = _
    rw [hbody, hred, summaryStage_stages]
  · show (pipelineBody env).trace.deploy_calls = 0
    rw [hbody, hred, summaryStage_deploy_calls]
    exact hdc
  · show some (pipelineBody env).err.isNone = some true
    rw [hbody, hred, (summaryStage_err_of_ok env _ _ sm hSum).1]
    rfl

/-- C6, witness at a concrete run realizing the scenario. -/
theorem claim_C6_witness :
    envRisk4.scan = .ok ["high-sev"] ∧
    envRisk4.assess_deployment_risks = .ok ⟨some 4, "high"⟩ ∧
    (run_pipeline cfg0 clk0 envRisk4).report.stages.deployment =
      some ⟨false, none, some "High risk assessment", ⟨some 4, "high"⟩⟩ ∧
    (run_pipeline cfg0 clk0 envRisk4).trace.deploy_calls = 0 ∧
    (run_pipeline cfg0 clk0 envRisk4).report.success = some true :=
  let h := claim_C6_theorem cfg0 clk0 envRisk4 "sugg" ["high-sev"] "sec" ⟨10, 0, "cov"⟩
    "changes" "tsugg" "plan" "summary" ⟨some 4, "high"⟩ rfl rfl rfl (by decide) rfl rfl
    (by decide) rfl rfl rfl (Or.inl rfl) rfl rfl rfl rfl
  ⟨rfl, rfl, h.1, h.2.1, h.2.2⟩

/-- C7, counterexample: at the baseline run no IaC files are found, and
the report then contains no infrastructure_validation entry at all -- in
particular no entry with a Skipped outcome, contrary to the claim -- while
the AI assistant is indeed never called for that stage. -/
theorem claim_C7_counterexample :
    envBase.find_iac_files = .ok [] ∧
    (run_pipeline cfg0 clk0 envBase).report.stages.infrastructure_validation = none ∧
    (run_pipeline cfg0 clk0 envBase).trace.infra_ai_calls = 0 :=
  ⟨rfl, rfl, rfl⟩

/-- C7, amended: in every run in which no IaC files are found, the whole
infrastructure-validation block is skipped: no stage entry of any kind is
recorded under infrastructure_validation (rather than an entry with
outcome Skipped), and the AI assistant's infrastructure analysis is never
invoked. -/
theorem claim_C7_theorem (cfg : Config) (clk : Clock) (env : Env)
    (h : env.find_iac_files = .ok []) :
    (run_pipeline cfg clk env).report.stages.infrastructure_validation = none ∧
    (run_pipeline cfg clk env).trace.infra_ai_calls = 0 := by
  constructor
  · show (pipelineBody env).stages.infrastructure_validation = none
    simp only [pipelineBody]
    repeat' split
    all_goals try rfl
    rw [infraStage_skip env _ _ h, deployStage_infra_field]
  · show (pipelineBody env).trace.infra_ai_calls = 0
    simp only [pipelineBody]
    repeat' split
    all_goals try rfl
    rw [infraStage_skip env _ _ h, deployStage_infra_ai_calls]

/-- C7, witness at the baseline run. -/
theorem claim_C7_witness :
    envBase.find_iac_files = .ok [] ∧
    (run_pipeline cfg0 clk0 envBase).report.stages.infrastructure_validation = none ∧
    (run_pipeline cfg0 clk0 envBase).trace.infra_ai_calls = 0 :=
  let h := claim_C7_theorem cfg0 clk0 envBase rfl
  ⟨rfl, h.1, h.2⟩

/-- A run identical to the baseline except that the summary call fails. -/
def envSummaryFail : Env :=
  { envBase with generate_build_summary := .error (.exn "llm down") }

/-- C8, counterexample: two runs with identical stage outcomes, one whose
summary call returns and one whose summary call raises.  The first ends
with success true, the second with success false, so a summary failure
does change the terminal success value: the call at main.py line 147 sits
inside the try block and its exception takes the except path. -/
theorem claim_C8_counterexample :
    (run_pipeline cfg0 clk0 envBase).report.success = some true ∧
    (run_pipeline cfg0 clk0 envSummaryFail).report.success = some false ∧
    (run_pipeline cfg0 clk0 envSummaryFail).report.stages =
      (run_pipeline cfg0 clk0 envBase).report.stages ∧
    envSummaryFail = { envBase with generate_build_summary := .error (.exn "llm down") } :=
  ⟨rfl, rfl, rfl, rfl⟩

/-- C8, amended: summary generation is not best-effort.  In every run
whose summary call raises, the terminal success field is false -- either
some earlier step already raised, or the summary exception itself is
caught and flips the run to the failure path. -/
theorem claim_C8_theorem (cfg : Config) (clk : Clock) (env : Env) (e : PyErr)
    (h : env.generate_build_summary = .error e) :
    (run_pipeline cfg clk env).report.success = some false := by
  show some (pipelineBody env).err.isNone = some false
  have hs := pipelineBody_err_isSome env e h
  cases h2 : (pipelineBody env).err with
  | none => rw [h2] at hs; simp at hs
  | some e2 => rfl

/-- C8, witness at a concrete run whose summary call fails. -/
theorem claim_C8_witness :
    envSummaryFail.generate_build_summary = .error (.exn "llm down") ∧
    (run_pipeline cfg0 clk0 envSummaryFail).report.success = some false :=
  ⟨rfl, claim_C8_theorem cfg0 clk0 envSummaryFail (.exn "llm down") rfl⟩

/-- C9: the orchestration is deterministic in its collaborator outputs.
Two runs against the same collaborator behaviour, differing only in build
id and clock, produce reports that agree on every field other than
build_id, started_at and completed_at, and identical spy traces. -/
theorem claim_C9_theorem (cfgA cfgB : Config) (clkA clkB : Clock) (env : Env)
    (hrepo : cfgA.repo_url = cfgB.repo_url) (hbr : cfgA.branch = cfgB.branch) :
    (run_pipeline cfgA clkA env).report.repository =
      (run_pipeline cfgB clkB env).report.repository ∧
    (run_pipeline cfgA clkA env).report.branch =
      (run_pipeline cfgB clkB env).report.branch ∧
    (run_pipeline cfgA clkA env).report.stages =
      (run_pipeline cfgB clkB env).report.stages ∧
    (run_pipeline cfgA clkA env).report.ai_summary =
      (run_pipeline cfgB clkB env).report.ai_summary ∧
    (run_pipeline cfgA clkA env).report.error =
      (run_pipeline cfgB clkB env).report.error ∧
    (run_pipeline cfgA clkA env).report.success =
      (run_pipeline cfgB clkB env).report.success ∧
    (run_pipeline cfgA clkA env).trace = (run_pipeline cfgB clkB env).trace :=
  ⟨hrepo, hbr, rfl, rfl, rfl, rfl, rfl⟩

/-- A second configuration and clock sharing repository and branch with
the first but with a different build id and different timestamps. -/
def cfg1 : Config := ⟨"build-2", "repo", "main"⟩

/-- The second run's clock. -/
def clk1 : Clock := ⟨5, 9⟩

/-- C9, witness: two concrete runs under different build ids and clocks
but the same collaborator behaviour. -/
theorem claim_C9_witness :
    cfg0.repo_url = cfg1.repo_url ∧ cfg0.branch = cfg1.branch ∧
    cfg0.build_id ≠ cfg1.build_id ∧
    (run_pipeline cfg0 clk0 envBase).report.stages =
      (run_pipeline cfg1 clk1 envBase).report.stages ∧
    (run_pipeline cfg0 clk0 envBase).report.success =
      (run_pipeline cfg1 clk1 envBase).report.success ∧
    (run_pipeline cfg0 clk0 envBase).trace = (run_pipeline cfg1 clk1 envBase).trace :=
  let h := claim_C9_theorem cfg0 cfg1 clk0 clk1 envBase rfl rfl
  ⟨rfl, rfl, by decide, h.2.2.1, h.2.2.2.2.2.1, h.2.2.2.2.2.2⟩

/-- C10: on every exit path the report carries the identity fields copied
from the configuration, the start timestamp taken at dict creation, the
stages mapping, the finalization timestamp and a boolean success value;
the identity fields are written before any collaborator runs and are
unaffected by any failure. -/
theorem claim_C10_theorem (cfg : Config) (clk : Clock) (env : Env) :
    (run_pipeline cfg clk env).report.build_id = cfg.build_id ∧
    (run_pipeline cfg clk env).report.repository = cfg.repo_url ∧
    (run_pipeline cfg clk env).report.branch = cfg.branch ∧
    (run_pipeline cfg clk env).report.started_at = clk.started_at ∧
    (run_pipeline cfg clk env).report.stages = (pipelineBody env).stages ∧
    (run_pipeline cfg clk env).report.completed_at = some clk.completed_at ∧
    ∃ b : Bool, (run_pipeline cfg clk env).report.success = some b :=
  ⟨rfl, rfl, rfl, rfl, rfl, rfl, ⟨(pipelineBody env).err.isNone, rfl⟩⟩

end CICD
